import Mathlib

/-!
Shallow embedding of the hotswap-mcp-bridge runtime core
(src/bridge/registry.ts, src/bridge/connection.ts, src/bridge/manager.ts,
src/adapters/base.ts, src/adapters (factory/stdio/memory), src/handlers/base,
src/utils/errors.ts).

Modelling conventions:
* JavaScript `Map<string, T>` becomes an association list `List (String × T)`
  (JS maps preserve insertion order; `Map.set` on an existing key updates in
  place, `Map.delete` removes the entry).
* `Record<string, string>` environment objects become association lists; the
  object-spread merge `{...old, ...delta}` is `recordMerge`.
* Opaque runtime handles (`ChildProcess`, `Transport`, `Date`) are modelled by
  `Option Unit`: only their presence is observable to the bridge core.
* Thrown errors are values: a `BError` is the chain of error objects, the
  outermost error first, its `cause` chain as the tail
  (ServerError/ConnectionError/TransportError from src/utils/errors.ts).
* `async` methods with mutable state become functions
  `BridgeState → ... → (Except BError α) × BridgeState`: an exception leaves
  the mutations already performed in place, exactly as in the source.
* External I/O outcomes (adapter `start()`, handler `stop()`/`start()`,
  `transport.close()`) are oracle `Bool` parameters: `true` models the I/O
  succeeding, `false` models it throwing.
-/

namespace HotswapBridge

/-- `TransportType` from src/bridge/types.ts. -/
inductive TransportType where
  | stdio
  | sse
  | memory
deriving DecidableEq, Repr

/-- `ServerStatus` from src/bridge/types.ts. -/
inductive ServerStatus where
  | starting
  | running
  | stopping
  | stopped
  | error
deriving DecidableEq, Repr

/-- `ConnectionStatus` from src/bridge/types.ts. -/
inductive ConnectionStatus where
  | connecting
  | connected
  | disconnecting
  | disconnected
  | error
deriving DecidableEq, Repr

/-- The bridge-specific members of `ErrorCode` from src/utils/errors.ts. -/
inductive ErrorCode where
  | UNKNOWN_ERROR
  | INVALID_CONFIGURATION
  | SERVER_NOT_FOUND
  | SERVER_ALREADY_EXISTS
  | SERVER_START_FAILED
  | SERVER_STOP_FAILED
  | CONNECTION_NOT_FOUND
  | CONNECTION_ALREADY_EXISTS
  | CONNECTION_FAILED
  | TRANSPORT_ERROR
  | TRANSPORT_NOT_SUPPORTED
deriving DecidableEq, Repr

/-- One error object of src/utils/errors.ts (`errClass` records which wrapper
class was instantiated; `entityId` is the `serverId` / `connectionId` /
`transportType` field). -/
structure ErrEntry where
  errClass : String
  code : ErrorCode
  message : String
  entityId : Option String
deriving DecidableEq, Repr

/-- An error together with its `cause` chain: the head is the outermost error,
the tail the chain of `cause` fields. -/
abbrev BError := List ErrEntry

/-- `new ServerError(code, message, serverId, cause)`. -/
def serverError (code : ErrorCode) (message : String) (serverId : Option String)
    (cause : BError) : BError :=
  { errClass := "ServerError", code := code, message := message,
    entityId := serverId } :: cause

/-- `new ConnectionError(code, message, connectionId, cause)`. -/
def connectionError (code : ErrorCode) (message : String)
    (connectionId : Option String) (cause : BError) : BError :=
  { errClass := "ConnectionError", code := code, message := message,
    entityId := connectionId } :: cause

/-- `new TransportError(code, message, transportType, cause)`. -/
def transportError (code : ErrorCode) (message : String)
    (transportType : Option String) (cause : BError) : BError :=
  { errClass := "TransportError", code := code, message := message,
    entityId := transportType } :: cause

/-- The codes along an error's cause chain, outermost first. -/
def chainCodes (e : BError) : List ErrorCode := e.map (·.code)

/-- `sseOptions` of `ServerConfig` (src/bridge/types.ts). -/
structure SseOptions where
  port : Option Nat
  host : Option String
deriving DecidableEq, Repr

/-- `ServerConfig` from src/bridge/types.ts (the `Implementation` base
contributes `name` and `version`). -/
structure ServerConfig where
  id : Option String
  name : String
  version : String
  command : String
  args : List String
  cwd : Option String
  env : Option (List (String × String))
  transport : TransportType
  sseOptions : Option SseOptions
  autoRestart : Option Bool
  maxRestarts : Option Nat
  restartDelay : Option Nat
deriving DecidableEq, Repr

/-- `ConnectionConfig` from src/bridge/types.ts. -/
structure ConnectionConfig where
  id : Option String
  name : String
  version : String
  serverId : String
  transport : TransportType
  timeout : Option Nat
  reconnect : Option Bool
  maxReconnects : Option Nat
  reconnectDelay : Option Nat
deriving DecidableEq, Repr

/-- `ServerInstance` from src/bridge/types.ts; `process`, `transport` and
`startTime` keep only the presence of the runtime handle. -/
structure ServerInstance where
  id : String
  config : ServerConfig
  status : ServerStatus
  process : Option Unit
  transport : Option Unit
  error : Option BError
  startTime : Option Unit
  restartCount : Nat
deriving DecidableEq, Repr

/-- `ConnectionInstance` from src/bridge/types.ts. -/
structure ConnectionInstance where
  id : String
  config : ConnectionConfig
  status : ConnectionStatus
  transport : Option Unit
  error : Option BError
  connectTime : Option Unit
  reconnectCount : Nat
deriving DecidableEq, Repr

/-- `Map.set` on a JS `Map` encoded as an association list: updates the entry
in place when the key is present, appends it otherwise. -/
def setEntry {α : Type} (m : List (String × α)) (k : String) (v : α) :
    List (String × α) :=
  if (m.lookup k).isSome then
    m.map (fun p => if p.1 = k then (k, v) else p)
  else
    m ++ [(k, v)]

/-- `Map.delete` on a JS `Map` encoded as an association list. -/
def delEntry {α : Type} (m : List (String × α)) (k : String) :
    List (String × α) :=
  m.filter (fun p => p.1 ≠ k)

/-- The object-spread merge `{...old, ...delta}` of two string records: keys of
`old` keep their position but take the value from `delta` when present; keys
only in `delta` are appended in `delta`'s order. -/
def recordMerge (old delta : List (String × String)) : List (String × String) :=
  old.map (fun p =>
    match delta.lookup p.1 with
    | some v => (p.1, v)
    | none => p) ++
  delta.filter (fun p => (old.lookup p.1).isNone)

/-- `ServerRegistry` from src/bridge/registry.ts: a `Map<string, ServerInstance>`. -/
structure ServerRegistry where
  servers : List (String × ServerInstance)
deriving DecidableEq, Repr

namespace ServerRegistry

/-- `ServerRegistry.getServer` (registry.ts lines 70-82). -/
def getServer (reg : ServerRegistry) (id : String) : Except BError ServerInstance :=
  match reg.servers.lookup id with
  | some server => .ok server
  | none =>
      .error (serverError .SERVER_NOT_FOUND
        ("Server with ID " ++ id ++ " not found") (some id) [])

/-- `ServerRegistry.registerServer` (registry.ts lines 22-47); `genId` stands
for the `randomUUID()` drawn when `config.id` is absent. -/
def registerServer (reg : ServerRegistry) (config : ServerConfig)
    (genId : String) : Except BError (ServerRegistry × ServerInstance) :=
  let id := config.id.getD genId
  if (reg.servers.lookup id).isSome then
    .error (serverError .SERVER_ALREADY_EXISTS
      ("Server with ID " ++ id ++ " already exists") (some id) [])
  else
    let server : ServerInstance :=
      { id := id
        config := { config with id := some id }
        status := .stopped
        process := none
        transport := none
        error := none
        startTime := none
        restartCount := 0 }
    .ok (⟨reg.servers ++ [(id, server)]⟩, server)

/-- `ServerRegistry.unregisterServer` (registry.ts lines 52-65). -/
def unregisterServer (reg : ServerRegistry) (id : String) :
    Except BError ServerRegistry := do
  let server ← reg.getServer id
  if server.status ≠ .stopped then
    .error (serverError .SERVER_STOP_FAILED
      ("Cannot unregister server " ++ id ++ " because it is not stopped")
      (some id) [])
  else
    .ok ⟨delEntry reg.servers id⟩

/-- `ServerRegistry.updateServerStatus` (registry.ts lines 94-110). -/
def updateServerStatus (reg : ServerRegistry) (id : String)
    (status : ServerStatus) (err : Option BError) : Except BError ServerRegistry := do
  let server ← reg.getServer id
  let s1 := { server with status := status }
  let s2 :=
    match err with
    | some e => { s1 with error := some e }
    | none => if status ≠ .error then { s1 with error := none } else s1
  let s3 := if status = .running then { s2 with startTime := some () } else s2
  .ok ⟨setEntry reg.servers id s3⟩

/-- `ServerRegistry.updateServerProcess` (registry.ts lines 115-118). -/
def updateServerProcess (reg : ServerRegistry) (id : String)
    (process : Option Unit) : Except BError ServerRegistry := do
  let server ← reg.getServer id
  .ok ⟨setEntry reg.servers id { server with process := process }⟩

/-- `ServerRegistry.updateServerTransport` (registry.ts lines 123-126). -/
def updateServerTransport (reg : ServerRegistry) (id : String)
    (transport : Option Unit) : Except BError ServerRegistry := do
  let server ← reg.getServer id
  .ok ⟨setEntry reg.servers id { server with transport := transport }⟩

/-- `ServerRegistry.incrementRestartCount` (registry.ts lines 131-135). -/
def incrementRestartCount (reg : ServerRegistry) (id : String) :
    Except BError (ServerRegistry × Nat) := do
  let server ← reg.getServer id
  let n := server.restartCount + 1
  .ok (⟨setEntry reg.servers id { server with restartCount := n }⟩, n)

/-- `ServerRegistry.resetRestartCount` (registry.ts lines 140-143). -/
def resetRestartCount (reg : ServerRegistry) (id : String) :
    Except BError ServerRegistry := do
  let server ← reg.getServer id
  .ok ⟨setEntry reg.servers id { server with restartCount := 0 }⟩

/-- `ServerRegistry.shouldRestartServer` (registry.ts lines 148-161). -/
def shouldRestartServer (reg : ServerRegistry) (id : String) :
    Except BError Bool := do
  let server ← reg.getServer id
  if server.config.autoRestart.getD false = false then
    .ok false
  else
    match server.config.maxRestarts with
    | some m => if server.restartCount ≥ m then .ok false else .ok true
    | none => .ok true

/-- `ServerRegistry.getServerRestartDelay` (registry.ts lines 166-169). -/
def getServerRestartDelay (reg : ServerRegistry) (id : String) :
    Except BError Nat := do
  let server ← reg.getServer id
  .ok (server.config.restartDelay.getD 1000)

/-- `ServerRegistry.updateServerEnvironment` (registry.ts lines 175-192):
merges the delta into `config.env` by object spread and returns whether the
server is currently running (restart required). -/
def updateServerEnvironment (reg : ServerRegistry) (id : String)
    (env : List (String × String)) : Except BError (ServerRegistry × Bool) := do
  let server ← reg.getServer id
  let merged := recordMerge (server.config.env.getD []) env
  let server' := { server with config := { server.config with env := some merged } }
  .ok (⟨setEntry reg.servers id server'⟩, server'.status = .running)

end ServerRegistry

/-- `ConnectionManager` from src/bridge/connection.ts: a
`Map<string, ConnectionInstance>`. -/
structure ConnectionManager where
  connections : List (String × ConnectionInstance)
deriving DecidableEq, Repr

namespace ConnectionManager

/-- `ConnectionManager.getConnection` (connection.ts lines 69-81). -/
def getConnection (cm : ConnectionManager) (id : String) :
    Except BError ConnectionInstance :=
  match cm.connections.lookup id with
  | some c => .ok c
  | none =>
      .error (connectionError .CONNECTION_NOT_FOUND
        ("Connection with ID " ++ id ++ " not found") (some id) [])

/-- `ConnectionManager.createConnection` (connection.ts lines 21-46); `genId`
stands for the `randomUUID()` drawn when `config.id` is absent. -/
def createConnection (cm : ConnectionManager) (config : ConnectionConfig)
    (genId : String) : Except BError (ConnectionManager × ConnectionInstance) :=
  let id := config.id.getD genId
  if (cm.connections.lookup id).isSome then
    .error (connectionError .CONNECTION_ALREADY_EXISTS
      ("Connection with ID " ++ id ++ " already exists") (some id) [])
  else
    let connection : ConnectionInstance :=
      { id := id
        config := { config with id := some id }
        status := .disconnected
        transport := none
        error := none
        connectTime := none
        reconnectCount := 0 }
    .ok (⟨cm.connections ++ [(id, connection)]⟩, connection)

/-- `ConnectionManager.removeConnection` (connection.ts lines 51-64): refuses
to remove a connection that is not `DISCONNECTED`. -/
def removeConnection (cm : ConnectionManager) (id : String) :
    Except BError ConnectionManager := do
  let connection ← cm.getConnection id
  if connection.status ≠ .disconnected then
    .error (connectionError .CONNECTION_FAILED
      ("Cannot remove connection " ++ id ++ " because it is not disconnected")
      (some id) [])
  else
    .ok ⟨delEntry cm.connections id⟩

/-- `ConnectionManager.getAllConnections` (connection.ts lines 86-88). -/
def getAllConnections (cm : ConnectionManager) : List ConnectionInstance :=
  cm.connections.map (·.2)

/-- `ConnectionManager.getConnectionsForServer` (connection.ts lines 93-97). -/
def getConnectionsForServer (cm : ConnectionManager) (serverId : String) :
    List ConnectionInstance :=
  cm.getAllConnections.filter (fun c => c.config.serverId = serverId)

/-- `ConnectionManager.updateConnectionStatus` (connection.ts lines 102-118). -/
def updateConnectionStatus (cm : ConnectionManager) (id : String)
    (status : ConnectionStatus) (err : Option BError) :
    Except BError ConnectionManager := do
  let connection ← cm.getConnection id
  let c1 := { connection with status := status }
  let c2 :=
    match err with
    | some e => { c1 with error := some e }
    | none => if status ≠ .error then { c1 with error := none } else c1
  let c3 := if status = .connected then { c2 with connectTime := some () } else c2
  .ok ⟨setEntry cm.connections id c3⟩

/-- `ConnectionManager.updateConnectionTransport` (connection.ts lines 123-126). -/
def updateConnectionTransport (cm : ConnectionManager) (id : String)
    (transport : Option Unit) : Except BError ConnectionManager := do
  let connection ← cm.getConnection id
  .ok ⟨setEntry cm.connections id { connection with transport := transport }⟩

/-- `ConnectionManager.resetReconnectCount` (connection.ts lines 140-143). -/
def resetReconnectCount (cm : ConnectionManager) (id : String) :
    Except BError ConnectionManager := do
  let connection ← cm.getConnection id
  .ok ⟨setEntry cm.connections id { connection with reconnectCount := 0 }⟩

end ConnectionManager

/-- The state of one transport adapter object (src/adapters/base.ts and
src/adapters/stdio.ts): `transport` is the `this.transport` field,
`processHandle` the `StdioServerAdapter.process` field (always `none` for the
other adapter classes), and `processAlive` tracks whether the operating-system
child process wrapped by a stdio server adapter is still alive (it is external
state, only changed by killing the process). -/
structure AdapterState where
  transport : Option Unit
  processHandle : Option Unit
  processAlive : Bool
deriving DecidableEq, Repr

/-- `BaseTransportAdapter.stop` (src/adapters/base.ts lines 33-39) together
with the `StdioServerAdapter.stop` override (closes and clears
`this.transport`, clears the `process` field, but deliberately does not kill
the process: "The process will be terminated by the server registry"). -/
def AdapterState.stop (a : AdapterState) : AdapterState :=
  { a with transport := none, processHandle := none }

/-- A `BaseProtocolHandler` (the base handler all three transport handlers
inherit unchanged): the pair of adapters set by `setClientAdapter` /
`setServerAdapter`. -/
structure HandlerState where
  clientAdapter : AdapterState
  serverAdapter : AdapterState
deriving DecidableEq, Repr

/-- `BaseProtocolHandler.stop` (handlers/base.ts lines 115-128): stops the
client adapter, then stops the server adapter. -/
def HandlerState.stop (h : HandlerState) : HandlerState :=
  { clientAdapter := h.clientAdapter.stop
    serverAdapter := h.serverAdapter.stop }

/-- `createServerAdapter` of src/adapters/factory.ts, reduced to its
observable validation: constructing an sse server adapter without both the
endpoint and the open response object throws `INVALID_CONFIGURATION`;
stdio and memory construction always succeeds. -/
def createServerAdapterCheck (transportType : TransportType)
    (endpoint : Option String) (hasRes : Bool) : Except BError Unit :=
  match transportType with
  | .stdio => .ok ()
  | .sse =>
      if endpoint.isSome ∧ hasRes then .ok ()
      else
        .error (transportError .INVALID_CONFIGURATION
          "Endpoint and response object are required for SSE server adapter"
          (some "sse") [])
  | .memory => .ok ()

/-- `createClientAdapter` of src/adapters/factory.ts, reduced to its
observable validation: a stdio client adapter requires the server process,
an sse client adapter requires a URL; memory construction always succeeds. -/
def createClientAdapterCheck (transportType : TransportType)
    (hasServerProcess : Bool) (hasUrl : Bool) : Except BError Unit :=
  match transportType with
  | .stdio =>
      if hasServerProcess then .ok ()
      else
        .error (transportError .INVALID_CONFIGURATION
          "Server process is required for stdio client adapter"
          (some "stdio") [])
  | .sse =>
      if hasUrl then .ok ()
      else
        .error (transportError .INVALID_CONFIGURATION
          "URL is required for SSE client adapter" (some "sse") [])
  | .memory => .ok ()

/-- The options record of `BridgeManager.connectToServer` (`endpoint`, the open
`ServerResponse`, and the `environmentVariables` delta). -/
structure ConnectOptions where
  endpoint : Option String
  hasRes : Bool
  environmentVariables : Option (List (String × String))
deriving DecidableEq, Repr

/-- The absent options object. -/
def ConnectOptions.none' : ConnectOptions :=
  { endpoint := none, hasRes := false, environmentVariables := none }

/-- The state owned by a `BridgeManager` (src/bridge/manager.ts): the two
registries and the key set of the `bridges : Map<string, BridgeHandler>`
(insertion order), the handler objects themselves being opaque. -/
structure BridgeState where
  registry : ServerRegistry
  connections : ConnectionManager
  bridges : List String
deriving DecidableEq, Repr

namespace BridgeManager

/-- The `try` body of `BridgeManager.startServer` (manager.ts lines 72-125).
`adapterStartOk` is the oracle for `serverAdapter.start()` succeeding (for a
stdio server this includes the spawn of the child process). The installation
of the process-exit watcher has no immediate state effect; the watcher's
callback is `processExit` below. -/
def startServerAttempt (st : BridgeState) (id : String) (server : ServerInstance)
    (adapterStartOk : Bool) : (Except BError Unit) × BridgeState :=
  match st.registry.updateServerStatus id .starting none with
  | .error e => (.error e, st)
  | .ok reg1 =>
    let st1 := { st with registry := reg1 }
    match createServerAdapterCheck server.config.transport none false with
    | .error e => (.error e, st1)
    | .ok _ =>
      if adapterStartOk = false then
        (.error (transportError .TRANSPORT_ERROR
          "Failed to start server transport"
          (some (reprStr server.config.transport)) []), st1)
      else
        -- for stdio the spawned process handle is stored on the instance
        let regP :=
          if server.config.transport = .stdio then
            match reg1.updateServerProcess id (some ()) with
            | .ok r => r
            | .error _ => reg1
          else reg1
        match regP.updateServerTransport id (some ()) with
        | .error e => (.error e, { st1 with registry := regP })
        | .ok reg2 =>
          match reg2.updateServerStatus id .running none with
          | .error e => (.error e, { st1 with registry := reg2 })
          | .ok reg3 =>
            match reg3.resetRestartCount id with
            | .error e => (.error e, { st1 with registry := reg3 })
            | .ok reg4 => (.ok (), { st1 with registry := reg4 })

/-- `BridgeManager.startServer` (manager.ts lines 57-139): idempotent early
return for `RUNNING`/`STARTING`; on any failure of the try body the server is
set to `ERROR` and a `SERVER_START_FAILED` error wrapping the cause is
thrown. -/
def startServer (st : BridgeState) (id : String) (adapterStartOk : Bool) :
    (Except BError Unit) × BridgeState :=
  match st.registry.getServer id with
  | .error e => (.error e, st)
  | .ok server =>
    if server.status = .running then (.ok (), st)
    else if server.status = .starting then (.ok (), st)
    else
      match startServerAttempt st id server adapterStartOk with
      | (.ok _, st') => (.ok (), st')
      | (.error e, st') =>
        let reg' :=
          match st'.registry.updateServerStatus id .error (some e) with
          | .ok r => r
          | .error _ => st'.registry
        (.error (serverError .SERVER_START_FAILED
            ("Failed to start server: " ++ server.config.name ++ " (" ++ id ++ ")")
            (some id) e),
          { st' with registry := reg' })

/-- The body of the `process.on("exit", ...)` watcher installed by
`startServer` (manager.ts lines 93-112): set the server to `STOPPED`, then, if
`shouldRestartServer` permits, increment the restart count and schedule a
delayed `startServer` call. The returned `Bool` is whether a restart was
scheduled; the scheduled call itself is `crashCycle`'s second half. -/
def processExit (st : BridgeState) (id : String) :
    (Except BError Bool) × BridgeState :=
  match st.registry.updateServerStatus id .stopped none with
  | .error e => (.error e, st)
  | .ok reg1 =>
    let st1 := { st with registry := reg1 }
    match st1.registry.shouldRestartServer id with
    | .error e => (.error e, st1)
    | .ok false => (.ok false, st1)
    | .ok true =>
      match st1.registry.incrementRestartCount id with
      | .error e => (.error e, st1)
      | .ok (reg2, _count) => (.ok true, { st1 with registry := reg2 })

/-- One full crash-restart cycle of a stdio server whose process dies after a
successful start: the exit watcher fires (`processExit`), and if a restart was
scheduled, the delayed `startServer` runs (a failure of that restart is only
logged by the `setTimeout` callback, manager.ts lines 106-110). The `Bool`
reports whether a restart was scheduled. -/
def crashCycle (st : BridgeState) (id : String) :
    (Except BError Bool) × BridgeState :=
  match processExit st id with
  | (.error e, st1) => (.error e, st1)
  | (.ok false, st1) => (.ok false, st1)
  | (.ok true, st1) =>
    let r := startServer st1 id true
    (.ok true, r.2)

/-- `BridgeManager.disconnectConnection` (manager.ts lines 402-449):
idempotent early return for `DISCONNECTED`/`DISCONNECTING`; stops and deletes
the bridge handler; on failure sets the connection to `ERROR` and throws
`CONNECTION_FAILED`. `handlerStopOk` is the oracle for `bridge.stop()`. -/
def disconnectConnection (st : BridgeState) (id : String)
    (handlerStopOk : Bool) : (Except BError Unit) × BridgeState :=
  match st.connections.getConnection id with
  | .error e => (.error e, st)
  | .ok connection =>
    if connection.status = .disconnected then (.ok (), st)
    else if connection.status = .disconnecting then (.ok (), st)
    else
      -- try block
      let tryResult : (Except BError Unit) × BridgeState :=
        match st.connections.updateConnectionStatus id .disconnecting none with
        | .error e => (.error e, st)
        | .ok cm1 =>
          let st1 := { st with connections := cm1 }
          if st1.bridges.contains id then
            if handlerStopOk = false then
              (.error (transportError .TRANSPORT_ERROR
                "Failed to stop bridge handler" none []), st1)
            else
              let st2 := { st1 with bridges := st1.bridges.filter (· ≠ id) }
              match st2.connections.updateConnectionStatus id .disconnected none with
              | .error e => (.error e, st2)
              | .ok cm2 =>
                match cm2.updateConnectionTransport id none with
                | .error e => (.error e, { st2 with connections := cm2 })
                | .ok cm3 => (.ok (), { st2 with connections := cm3 })
          else
            match st1.connections.updateConnectionStatus id .disconnected none with
            | .error e => (.error e, st1)
            | .ok cm2 =>
              match cm2.updateConnectionTransport id none with
              | .error e => (.error e, { st1 with connections := cm2 })
              | .ok cm3 => (.ok (), { st1 with connections := cm3 })
      match tryResult with
      | (.ok _, st') => (.ok (), st')
      | (.error e, st') =>
        let cm' :=
          match st'.connections.updateConnectionStatus id .error (some e) with
          | .ok c => c
          | .error _ => st'.connections
        (.error (connectionError .CONNECTION_FAILED
            ("Failed to disconnect connection: " ++ id) (some id) e),
          { st' with connections := cm' })

/-- The per-connection loop of `stopServer` (manager.ts lines 164-172): each
disconnect is awaited and an individual failure is only logged. -/
def disconnectAllLogged (st : BridgeState) (ids : List String)
    (handlerStopOk : Bool) : BridgeState :=
  match ids with
  | [] => st
  | cid :: rest =>
      disconnectAllLogged (disconnectConnection st cid handlerStopOk).2 rest
        handlerStopOk

/-- The `try` body of `BridgeManager.stopServer` (manager.ts lines 159-191).
`closeOk` is the oracle for `server.transport.close()`; `killProcess` is
modelled as resolving (the exit event it triggers is `processExit`, which in
the source races with this method asynchronously and is therefore a separate
step of the model). -/
def stopServerAttempt (st : BridgeState) (id : String)
    (handlerStopOk closeOk : Bool) : (Except BError Unit) × BridgeState :=
  match st.registry.updateServerStatus id .stopping none with
  | .error e => (.error e, st)
  | .ok reg1 =>
    let st1 := { st with registry := reg1 }
    let conns := st1.connections.getConnectionsForServer id
    let st2 := disconnectAllLogged st1 (conns.map (·.id)) handlerStopOk
    match st2.registry.getServer id with
    | .error e => (.error e, st2)
    | .ok server =>
      if server.transport.isSome ∧ closeOk = false then
        (.error (transportError .TRANSPORT_ERROR
          "Failed to close server transport" none []), st2)
      else
        match st2.registry.updateServerStatus id .stopped none with
        | .error e => (.error e, st2)
        | .ok reg2 =>
          match reg2.updateServerProcess id none with
          | .error e => (.error e, { st2 with registry := reg2 })
          | .ok reg3 =>
            match reg3.updateServerTransport id none with
            | .error e => (.error e, { st2 with registry := reg3 })
            | .ok reg4 => (.ok (), { st2 with registry := reg4 })

/-- `BridgeManager.stopServer` (manager.ts lines 144-205): idempotent early
return for `STOPPED`/`STOPPING`; on failure of the try body the server is set
to `ERROR` and a `SERVER_STOP_FAILED` error wrapping the cause is thrown. -/
def stopServer (st : BridgeState) (id : String) (handlerStopOk closeOk : Bool) :
    (Except BError Unit) × BridgeState :=
  match st.registry.getServer id with
  | .error e => (.error e, st)
  | .ok server =>
    if server.status = .stopped then (.ok (), st)
    else if server.status = .stopping then (.ok (), st)
    else
      match stopServerAttempt st id handlerStopOk closeOk with
      | (.ok _, st') => (.ok (), st')
      | (.error e, st') =>
        let reg' :=
          match st'.registry.updateServerStatus id .error (some e) with
          | .ok r => r
          | .error _ => st'.registry
        (.error (serverError .SERVER_STOP_FAILED
            ("Failed to stop server: " ++ server.config.name ++ " (" ++ id ++ ")")
            (some id) e),
          { st' with registry := reg' })

/-- The transport-combination dispatch of `connectToServer` (manager.ts lines
285-360), including the adapter-factory validation each branch performs.
Returns `()` when a bridge handler was built. -/
def buildBridgeHandler (id : String)
    (clientTransport serverTransport : TransportType) (server : ServerInstance)
    (opts : ConnectOptions) : Except BError Unit :=
  if clientTransport = .stdio ∧ serverTransport = .sse then
    if ¬(opts.endpoint.isSome ∧ opts.hasRes) then
      .error (connectionError .INVALID_CONFIGURATION
        "Endpoint and response object are required for SSE server" (some id) [])
    else do
      let _ ← createServerAdapterCheck .sse opts.endpoint opts.hasRes
      let _ ← createClientAdapterCheck .stdio server.process.isSome false
      .ok ()
  else if clientTransport = .sse ∧ serverTransport = .stdio then
    if server.process.isNone then
      .error (serverError .SERVER_NOT_FOUND
        ("Server " ++ server.id ++ " process not found") (some server.id) [])
    else do
      let _ ← createServerAdapterCheck .stdio none false
      -- the sse client adapter URL is always constructed from
      -- `options?.endpoint || "/"`, so the factory URL check passes
      let _ ← createClientAdapterCheck .sse false true
      .ok ()
  else if clientTransport = .memory ∧ serverTransport = .memory then do
    -- a linked in-memory transport pair is created for the two adapters
    let _ ← createClientAdapterCheck .memory false false
    let _ ← createServerAdapterCheck .memory none false
    .ok ()
  else if clientTransport = serverTransport then
    .error (connectionError .INVALID_CONFIGURATION
      "Direct connection with same transport type is not supported by the bridge"
      (some id) [])
  else
    .error (connectionError .INVALID_CONFIGURATION
      "Unsupported transport combination" (some id) [])

/-- The `try` body of `BridgeManager.connectToServer` (manager.ts lines
257-376). Reads of the live `server` object after mutations are modelled by
re-fetching the instance from the registry. -/
def connectAttempt (st : BridgeState) (id : String) (config : ConnectionConfig)
    (opts : ConnectOptions)
    (handlerStopOk closeOk adapterStartOk handlerStartOk : Bool) :
    (Except BError String) × BridgeState :=
  match st.registry.getServer config.serverId with
  | .error e => (.error e, st)
  | .ok server =>
    -- optional environmentVariables delta (manager.ts lines 262-273)
    let envStep : (Except BError Unit) × BridgeState :=
      match opts.environmentVariables with
      | none => (.ok (), st)
      | some d =>
        match st.registry.updateServerEnvironment config.serverId d with
        | .error e => (.error e, st)
        | .ok (reg1, needsRestart) =>
          let st1 := { st with registry := reg1 }
          if needsRestart ∧ server.status = .running then
            match stopServer st1 config.serverId handlerStopOk closeOk with
            | (.error e, st2) => (.error e, st2)
            | (.ok _, st2) =>
              match startServer st2 config.serverId adapterStartOk with
              | (.error e, st3) => (.error e, st3)
              | (.ok _, st3) => (.ok (), st3)
          else (.ok (), st1)
    match envStep with
    | (.error e, stE) => (.error e, stE)
    | (.ok _, stE) =>
      match stE.registry.getServer config.serverId with
      | .error e => (.error e, stE)
      | .ok server2 =>
        -- ensure the server is running (manager.ts lines 276-278)
        let runStep : (Except BError Unit) × BridgeState :=
          if server2.status ≠ .running then
            match startServer stE config.serverId adapterStartOk with
            | (.error e, st2) => (.error e, st2)
            | (.ok _, st2) => (.ok (), st2)
          else (.ok (), stE)
        match runStep with
        | (.error e, stR) => (.error e, stR)
        | (.ok _, stR) =>
          match stR.connections.updateConnectionStatus id .connecting none with
          | .error e => (.error e, stR)
          | .ok cm1 =>
            let st3 := { stR with connections := cm1 }
            match st3.registry.getServer config.serverId with
            | .error e => (.error e, st3)
            | .ok server3 =>
              match buildBridgeHandler id config.transport
                  server3.config.transport server3 opts with
              | .error e => (.error e, st3)
              | .ok _ =>
                -- bridgeHandler.start() (starts server adapter, then client)
                if handlerStartOk = false then
                  (.error (transportError .TRANSPORT_ERROR
                    "Failed to start bridge handler" none []), st3)
                else
                  let st4 := { st3 with bridges := st3.bridges ++ [id] }
                  match st4.connections.updateConnectionStatus id .connected none with
                  | .error e => (.error e, st4)
                  | .ok cm2 =>
                    match cm2.resetReconnectCount id with
                    | .error e => (.error e, { st4 with connections := cm2 })
                    | .ok cm3 => (.ok id, { st4 with connections := cm3 })

/-- `BridgeManager.connectToServer` (manager.ts lines 245-397). The connection
is reserved by `createConnection` before the `try` block, so a duplicate-id
failure there propagates unwrapped; on any failure inside the block the
connection is set to `ERROR`, `removeConnection` is attempted (its own failure
being swallowed), and a `CONNECTION_FAILED` error wrapping the cause is
thrown. `genId` stands for the `randomUUID()` drawn when `config.id` is
absent. -/
def connectToServer (st : BridgeState) (config : ConnectionConfig)
    (genId : String) (opts : ConnectOptions)
    (handlerStopOk closeOk adapterStartOk handlerStartOk : Bool) :
    (Except BError String) × BridgeState :=
  match st.connections.createConnection config genId with
  | .error e => (.error e, st)
  | .ok (cm0, connection) =>
    let id := connection.id
    let st0 := { st with connections := cm0 }
    match connectAttempt st0 id connection.config opts handlerStopOk closeOk
        adapterStartOk handlerStartOk with
    | (.ok rid, st') => (.ok rid, st')
    | (.error e, st') =>
      let cm' :=
        match st'.connections.updateConnectionStatus id .error (some e) with
        | .ok c => c
        | .error _ => st'.connections
      let cm'' :=
        match cm'.removeConnection id with
        | .ok c => c
        | .error _ => cm'
      (.error (connectionError .CONNECTION_FAILED
          ("Failed to connect to server: " ++ config.serverId) (some id) e),
        { st' with connections := cm'' })

/-- The disconnect loop of `updateServerEnvironment` (manager.ts lines
224-227): each disconnect is awaited and an error aborts the whole
operation (there is no surrounding catch). -/
def disconnectAllStrict (st : BridgeState) (ids : List String)
    (handlerStopOk : Bool) : (Except BError Unit) × BridgeState :=
  match ids with
  | [] => (.ok (), st)
  | cid :: rest =>
    match disconnectConnection st cid handlerStopOk with
    | (.error e, st') => (.error e, st')
    | (.ok _, st') => disconnectAllStrict st' rest handlerStopOk

/-- The reconnect loop of `updateServerEnvironment` (manager.ts lines
233-236): re-runs `connectToServer` on each remembered config; an error
aborts the whole operation. -/
def reconnectAll (st : BridgeState) (configs : List ConnectionConfig)
    (handlerStopOk closeOk adapterStartOk handlerStartOk : Bool) :
    (Except BError Unit) × BridgeState :=
  match configs with
  | [] => (.ok (), st)
  | config :: rest =>
    match connectToServer st config "" ConnectOptions.none' handlerStopOk
        closeOk adapterStartOk handlerStartOk with
    | (.error e, st') => (.error e, st')
    | (.ok _, st') =>
        reconnectAll st' rest handlerStopOk closeOk adapterStartOk handlerStartOk

/-- `BridgeManager.updateServerEnvironment` (manager.ts lines 211-240): merge
the delta into the registry; when the server was running, snapshot the configs
of its connections, disconnect them, restart the server, and re-run
`connectToServer` on each snapshotted config. There is no catch block: any
failure along the way propagates with the mutations made so far in place. -/
def updateServerEnvironment (st : BridgeState) (id : String)
    (env : List (String × String))
    (handlerStopOk closeOk adapterStartOk handlerStartOk : Bool) :
    (Except BError Unit) × BridgeState :=
  match st.registry.updateServerEnvironment id env with
  | .error e => (.error e, st)
  | .ok (reg1, needsRestart) =>
    let st1 := { st with registry := reg1 }
    if needsRestart = false then (.ok (), st1)
    else
      let conns := st1.connections.getConnectionsForServer id
      let configs := conns.map (·.config)
      match disconnectAllStrict st1 (conns.map (·.id)) handlerStopOk with
      | (.error e, st2) => (.error e, st2)
      | (.ok _, st2) =>
        match stopServer st2 id handlerStopOk closeOk with
        | (.error e, st3) => (.error e, st3)
        | (.ok _, st3) =>
          match startServer st3 id adapterStartOk with
          | (.error e, st4) => (.error e, st4)
          | (.ok _, st4) =>
            reconnectAll st4 configs handlerStopOk closeOk adapterStartOk
              handlerStartOk

end BridgeManager

/-- The codes along the cause chain of a result, the empty list on success. -/
def chainCodesOf {α : Type} : Except BError α → List ErrorCode
  | .ok _ => []
  | .error e => chainCodes e

/-- The combinations the transport dispatch builds a handler for
(manager.ts lines 292, 313, 332): stdio client with sse server, sse client
with stdio server, memory client with memory server. -/
def supportedCombo : TransportType → TransportType → Bool
  | .stdio, .sse => true
  | .sse, .stdio => true
  | .memory, .memory => true
  | _, _ => false

/-- The server instance after `updateServerEnvironment` merged a delta into
its config (registry.ts lines 179-182): only `config.env` changes. -/
def envMergedServer (server : ServerInstance) (d : List (String × String)) :
    ServerInstance :=
  { server with config := { server.config with
      env := some (recordMerge (server.config.env.getD []) d) } }

/-- `n` repetitions of the crash-restart cycle. -/
def crashCycleIter (id : String) : Nat → BridgeState → BridgeState
  | 0, st => st
  | n + 1, st => crashCycleIter id n (BridgeManager.crashCycle st id).2

/-! ### Concrete fixtures used by the witnesses and counterexamples -/

/-- A registered stdio server with the crash-restart policy
`autoRestart = true, maxRestarts = 1`. -/
def demoStdioConfig : ServerConfig :=
  { id := some "s1", name := "srv", version := "1.0", command := "cmd",
    args := [], cwd := none, env := none, transport := .stdio,
    sseOptions := none, autoRestart := some true, maxRestarts := some 1,
    restartDelay := some 10 }

/-- The instance of `demoStdioConfig` right after a successful start. -/
def runningStdioServer : ServerInstance :=
  { id := "s1", config := demoStdioConfig, status := .running,
    process := some (), transport := some (), error := none,
    startTime := some (), restartCount := 0 }

/-- Bridge state holding only the running stdio server. -/
def crashState : BridgeState :=
  { registry := ⟨[("s1", runningStdioServer)]⟩, connections := ⟨[]⟩,
    bridges := [] }

/-- The same server while an operator stop is in progress. -/
def stoppingStdioServer : ServerInstance :=
  { runningStdioServer with status := .stopping }

/-- Bridge state holding the server in `STOPPING`. -/
def stoppingState : BridgeState :=
  { registry := ⟨[("s1", stoppingStdioServer)]⟩, connections := ⟨[]⟩,
    bridges := [] }

/-- The same server at rest (never started). -/
def stoppedStdioServer : ServerInstance :=
  { runningStdioServer with
    status := .stopped
    process := none
    transport := none
    startTime := none }

/-- Bridge state holding the stopped server. -/
def stoppedState : BridgeState :=
  { registry := ⟨[("s1", stoppedStdioServer)]⟩, connections := ⟨[]⟩,
    bridges := [] }

/-- The same server while starting. -/
def startingStdioServer : ServerInstance :=
  { runningStdioServer with status := .starting }

/-- Registry holding the starting server. -/
def startingRegistry : ServerRegistry :=
  ⟨[("s1", startingStdioServer)]⟩

/-- `demoStdioConfig` without a caller-chosen id. -/
def cfgNoId : ServerConfig := { demoStdioConfig with id := none }

/-- A running server of the given native transport (a process handle is
present exactly for stdio, as `startServer` installs it only there). -/
def mkTransportServer (t : TransportType) : ServerInstance :=
  { runningStdioServer with
    config := { demoStdioConfig with transport := t }
    process := if t = .stdio then some () else none }

/-- Bridge state holding only `mkTransportServer t`. -/
def mkTransportState (t : TransportType) : BridgeState :=
  { registry := ⟨[("s1", mkTransportServer t)]⟩, connections := ⟨[]⟩,
    bridges := [] }

/-- A client connection config for server `s1` with the given transport. -/
def mkClientConfig (t : TransportType) : ConnectionConfig :=
  { id := some "c1", name := "cli", version := "1.0", serverId := "s1",
    transport := t, timeout := none, reconnect := none,
    maxReconnects := none, reconnectDelay := none }

/-- Connect options carrying the SSE hints (POST endpoint and open
response). -/
def sseHintOpts : ConnectOptions :=
  { endpoint := some "/message", hasRes := true, environmentVariables := none }

/-- An sse-transport server onto which a process handle has been placed, so
that the stdio client adapter of the stdio↔sse combination can bind to it. -/
def sseServerWithProcess : ServerInstance :=
  { mkTransportServer .sse with process := some () }

/-- Bridge state holding `sseServerWithProcess`. -/
def sseProcessState : BridgeState :=
  { registry := ⟨[("s1", sseServerWithProcess)]⟩, connections := ⟨[]⟩,
    bridges := [] }

/-- The cause raised by the same-transport rejection of the dispatch for
connection `c1`. -/
def causeSameTransport : BError :=
  connectionError .INVALID_CONFIGURATION
    "Direct connection with same transport type is not supported by the bridge"
    (some "c1") []

/-- A memory-transport server config (no crash restarts). -/
def memServerConfig : ServerConfig :=
  { demoStdioConfig with transport := .memory, autoRestart := some false }

/-- The running instance of the memory server. -/
def memRunningServer : ServerInstance :=
  { id := "s1", config := memServerConfig, status := .running, process := none,
    transport := some (), error := none, startTime := some (),
    restartCount := 0 }

/-- A connected memory client `c1` of server `s1`. -/
def connectedMemConnection : ConnectionInstance :=
  { id := "c1", config := mkClientConfig .memory, status := .connected,
    transport := none, error := none, connectTime := some (),
    reconnectCount := 0 }

/-- The steady state before an environment hot-swap: the memory server is
running and client `c1` is connected with a live handler. -/
def hotswapState : BridgeState :=
  { registry := ⟨[("s1", memRunningServer)]⟩,
    connections := ⟨[("c1", connectedMemConnection)]⟩, bridges := ["c1"] }

/-- A handler whose two adapters both hold an open transport; the server-side
adapter is a stdio server adapter with a live child process. -/
def liveHandler : HandlerState :=
  { clientAdapter :=
      { transport := some (), processHandle := none, processAlive := true }
    serverAdapter :=
      { transport := some (), processHandle := some (), processAlive := true } }

section LookupLemmas

variable {β : Type}

theorem lookup_cons_eq (k a : String) (b : β) (t : List (String × β)) :
    ((a, b) :: t).lookup k = if k = a then some b else t.lookup k := by
  by_cases h : k = a
  · show (match k == a with
      | true => some b
      | false => t.lookup k) = _
    rw [if_pos h, show (k == a) = true by exact beq_iff_eq.mpr h]
  · show (match k == a with
      | true => some b
      | false => t.lookup k) = _
    rw [if_neg h, show (k == a) = false by exact beq_eq_false_iff_ne.mpr h]

theorem lookup_append_of_some {k : String} {l1 : List (String × β)} {v : β}
    (l2 : List (String × β)) (h : l1.lookup k = some v) :
    (l1 ++ l2).lookup k = some v := by
  induction l1 with
  | nil => exact absurd h (by simp [List.lookup])
  | cons p t ih =>
    obtain ⟨a, b⟩ := p
    rw [lookup_cons_eq] at h
    rw [List.cons_append, lookup_cons_eq]
    by_cases hk : k = a
    · rw [if_pos hk]
      rw [if_pos hk] at h
      exact h
    · rw [if_neg hk]
      rw [if_neg hk] at h
      exact ih h

theorem lookup_append_of_none {k : String} {l1 : List (String × β)}
    (l2 : List (String × β)) (h : l1.lookup k = none) :
    (l1 ++ l2).lookup k = l2.lookup k := by
  induction l1 with
  | nil => rfl
  | cons p t ih =>
    obtain ⟨a, b⟩ := p
    rw [lookup_cons_eq] at h
    rw [List.cons_append, lookup_cons_eq]
    by_cases hk : k = a
    · rw [if_pos hk] at h
      exact absurd h (by simp)
    · rw [if_neg hk]
      rw [if_neg hk] at h
      exact ih h

end LookupLemmas

/-- Looking up a key in the overridden copy of `old` that `recordMerge`
builds: present keys of `old` take the delta's value when the delta has
one. -/
theorem lookup_map_override (old delta : List (String × String)) (k : String) :
    ((old.map fun p =>
        match delta.lookup p.1 with
        | some v => (p.1, v)
        | none => p).lookup k) =
      (old.lookup k).map (fun w => (delta.lookup k).getD w) := by
  induction old with
  | nil => rfl
  | cons p t ih =>
    obtain ⟨a, b⟩ := p
    rw [List.map_cons, lookup_cons_eq (t := t)]
    by_cases hk : k = a
    · subst hk
      cases hd : delta.lookup k <;>
        simp [lookup_cons_eq, hd]
    · rw [if_neg hk]
      cases hd : delta.lookup a <;>
        simp [lookup_cons_eq, hd, hk, ih]

/-- Looking up a key absent from `old` in the filtered copy of `delta` that
`recordMerge` appends. -/
theorem lookup_filter_fresh (old delta : List (String × String)) (k : String)
    (h : old.lookup k = none) :
    ((delta.filter fun p => (old.lookup p.1).isNone).lookup k) =
      delta.lookup k := by
  induction delta with
  | nil => rfl
  | cons p t ih =>
    obtain ⟨a, b⟩ := p
    by_cases hk : k = a
    · subst hk
      simp only [List.filter_cons]
      rw [show ((old.lookup (k, b).1).isNone = true) by simp [h]]
      simp [lookup_cons_eq]
    · cases hkeep : (old.lookup (a, b).1).isNone <;>
        simp [List.filter_cons, hkeep, lookup_cons_eq, hk, ih]

/-- Object-spread semantics of `recordMerge`, delta side: every key-value pair
of the delta is present in the merge. -/
theorem recordMerge_lookup_delta {old delta : List (String × String)}
    {k : String} {v : String} (h : delta.lookup k = some v) :
    (recordMerge old delta).lookup k = some v := by
  unfold recordMerge
  cases hold : old.lookup k with
  | some w =>
    refine lookup_append_of_some _ ?_
    rw [lookup_map_override, hold, h]
    rfl
  | none =>
    rw [lookup_append_of_none _ (by rw [lookup_map_override, hold]; rfl),
      lookup_filter_fresh _ _ _ hold]
    exact h

/-- Object-spread semantics of `recordMerge`, old side: keys absent from the
delta keep their old value. -/
theorem recordMerge_lookup_old {old delta : List (String × String)}
    {k : String} (h : delta.lookup k = none) :
    (recordMerge old delta).lookup k = old.lookup k := by
  unfold recordMerge
  cases hold : old.lookup k with
  | some w =>
    exact lookup_append_of_some _
      (by rw [lookup_map_override, hold, h]; rfl)
  | none =>
    rw [lookup_append_of_none _ (by rw [lookup_map_override, hold]; rfl),
      lookup_filter_fresh _ _ _ hold]
    exact h

/-! ### The claims -/

/-- C1: the claim states that for a Running server with a Connected
connection, a successful `updateEnvironment` call leaves the env merged, the
server Running, and every previously Connected connection Connected again.
On the code the call can never succeed in that situation: `disconnectConnection`
leaves the old `ConnectionInstance` registered (only `removeConnection`
deletes, and it is never called on this path), so the reconnect loop's
`createConnection` hits the stored config's id and throws
`CONNECTION_ALREADY_EXISTS`, aborting the hot-swap after the server was
already restarted — the previously Connected connection is left Disconnected
while the server runs with the new env. -/
theorem hotswap_with_live_connection_fails :
    connectedMemConnection.status = .connected ∧
    memRunningServer.status = .running ∧
    (BridgeManager.updateServerEnvironment hotswapState "s1" [("X", "1")]
        true true true true).1 =
      .error (connectionError .CONNECTION_ALREADY_EXISTS
        "Connection with ID c1 already exists" (some "c1") []) ∧
    ((BridgeManager.updateServerEnvironment hotswapState "s1" [("X", "1")]
        true true true true).2.connections.connections.lookup "c1").map
        (·.status) = some .disconnected ∧
    ((BridgeManager.updateServerEnvironment hotswapState "s1" [("X", "1")]
        true true true true).2.connections.getAllConnections.filter
        (fun c => decide (c.status = .connected))) = [] ∧
    ((BridgeManager.updateServerEnvironment hotswapState "s1" [("X", "1")]
        true true true true).2.registry.servers.lookup "s1").map (·.status) =
      some .running ∧
    ((BridgeManager.updateServerEnvironment hotswapState "s1" [("X", "1")]
        true true true true).2.registry.servers.lookup "s1").bind
        (fun s => (s.config.env.getD []).lookup "X") = some "1" :=
  ⟨rfl, rfl, rfl, rfl, rfl, rfl, rfl⟩

/-- C2: the claim states that a crashing server with `maxRestarts = N` is
restarted exactly `N` times and then rests Stopped with `restartCount = N`,
because `restartCount` is reset only by operator-initiated starts. On the code
the crash-driven restart runs the same `startServer`, whose success path
unconditionally resets `restartCount` to 0 (manager.ts line 123): one full
crash-restart cycle maps the running state back to itself with a restart
scheduled (`.ok true`), so with `maxRestarts = 1` a restart is scheduled on
every crash forever and the loop never terminates. -/
theorem crash_restart_loop_never_terminates :
    runningStdioServer.config.maxRestarts = some 1 ∧
    runningStdioServer.restartCount = 0 ∧
    BridgeManager.crashCycle crashState "s1" = (.ok true, crashState) ∧
    (∀ n : Nat, crashCycleIter "s1" n crashState = crashState ∧
      (BridgeManager.crashCycle (crashCycleIter "s1" n crashState) "s1").1 =
        .ok true) := by
  have hfix : BridgeManager.crashCycle crashState "s1" = (.ok true, crashState) := rfl
  have hiter : ∀ m : Nat, crashCycleIter "s1" m crashState = crashState := by
    intro m
    induction m with
    | zero => rfl
    | succ m ih =>
      show crashCycleIter "s1" m (BridgeManager.crashCycle crashState "s1").2 =
        crashState
      rw [hfix]
      exact ih
  exact ⟨rfl, rfl, hfix, fun n => ⟨hiter n, by rw [hiter n, hfix]⟩⟩

/-- C3: the claim states that a `connect()` failing after the
`ConnectionInstance` was reserved returns a `ConnectionFailed` error carrying
the cause, removes the instance from the connection registry and leaves no
handler in the bridge map. On the code the error and the empty bridge map
hold, but the instance is NOT removed: the catch block first sets the
connection to `Error` and then calls `removeConnection`, whose guard rejects
any connection that is not `Disconnected`, so the instance stays registered in
status `Error`. -/
theorem failed_connect_leaves_error_residue :
    (BridgeManager.connectToServer (mkTransportState .stdio)
        (mkClientConfig .stdio) "" ConnectOptions.none' true true true true).1 =
      .error (connectionError .CONNECTION_FAILED
        "Failed to connect to server: s1" (some "c1") causeSameTransport) ∧
    ((BridgeManager.connectToServer (mkTransportState .stdio)
        (mkClientConfig .stdio) "" ConnectOptions.none' true true true true).2.connections.connections.lookup
        "c1") =
      some { id := "c1", config := mkClientConfig .stdio, status := .error,
             transport := none, error := some causeSameTransport,
             connectTime := none, reconnectCount := 0 } ∧
    (BridgeManager.connectToServer (mkTransportState .stdio)
        (mkClientConfig .stdio) "" ConnectOptions.none' true true true true).2.bridges = [] :=
  ⟨rfl, rfl, rfl⟩

/-- C4 (counterexample): the claim states that `handler.stop()` does not close
the server-side adapter. On the code `BaseProtocolHandler.stop` stops both
adapters, so a server adapter whose transport was open before `stop()` has it
closed afterwards. -/
theorem handler_stop_closes_server_adapter_cex :
    liveHandler.serverAdapter.transport = some () ∧
    liveHandler.stop.serverAdapter.transport = none :=
  ⟨rfl, rfl⟩

/-- C4 (amended): for every handler built from a client adapter and a server
adapter, `handler.stop()` closes the client adapter AND closes the server-side
adapter's transport (clearing its handles); it does not, however, terminate
the child process wrapped by a stdio server adapter — killing the process
remains the supervisor's responsibility. -/
theorem handler_stop_closes_both_adapters (h : HandlerState) :
    h.stop.clientAdapter.transport = none ∧
    h.stop.serverAdapter.transport = none ∧
    h.stop.serverAdapter.processAlive = h.serverAdapter.processAlive ∧
    h.stop.clientAdapter.processAlive = h.clientAdapter.processAlive :=
  ⟨rfl, rfl, rfl, rfl⟩

/-- C5 (counterexample): the claim states that a same-transport connect
request fails with an error of kind `UnsupportedTransport`
(`TRANSPORT_NOT_SUPPORTED`). On the code the stdio↔stdio request fails with a
`CONNECTION_FAILED` error whose cause has code `INVALID_CONFIGURATION`;
`TRANSPORT_NOT_SUPPORTED` appears nowhere in the cause chain. -/
theorem unsupported_combo_error_code_cex :
    chainCodesOf (BridgeManager.connectToServer (mkTransportState .stdio)
        (mkClientConfig .stdio) "" sseHintOpts true true true true).1 =
      [.CONNECTION_FAILED, .INVALID_CONFIGURATION] ∧
    (ErrorCode.INVALID_CONFIGURATION ≠ ErrorCode.TRANSPORT_NOT_SUPPORTED) ∧
    ErrorCode.TRANSPORT_NOT_SUPPORTED ∉
      chainCodesOf (BridgeManager.connectToServer (mkTransportState .stdio)
        (mkClientConfig .stdio) "" sseHintOpts true true true true).1 :=
  ⟨rfl, by decide, by decide⟩

/-- C5 (amended): only the combinations stdio↔sse, sse↔stdio and
memory↔memory pass the transport dispatch of `connectToServer`; every other
combination — the same transport on both sides or any remaining pairing —
fails with a `ConnectionFailed` error whose cause has code
`INVALID_CONFIGURATION` (not `TRANSPORT_NOT_SUPPORTED`). -/
theorem transport_combination_dispatch_spec :
    (∀ c s : TransportType, supportedCombo c s = false →
      chainCodesOf (BridgeManager.connectToServer (mkTransportState s)
          (mkClientConfig c) "" sseHintOpts true true true true).1 =
        [.CONNECTION_FAILED, .INVALID_CONFIGURATION]) ∧
    (BridgeManager.connectToServer (mkTransportState .memory)
        (mkClientConfig .memory) "" sseHintOpts true true true true).1 =
      .ok "c1" ∧
    (BridgeManager.connectToServer (mkTransportState .stdio)
        (mkClientConfig .sse) "" sseHintOpts true true true true).1 =
      .ok "c1" ∧
    (BridgeManager.connectToServer sseProcessState
        (mkClientConfig .stdio) "" sseHintOpts true true true true).1 =
      .ok "c1" := by
  refine ⟨?_, rfl, rfl, rfl⟩
  intro c s hcs
  cases c <;> cases s <;> first
    | exact absurd hcs (by decide)
    | rfl

/-- Witness for the amended C5 theorem at the concrete combination
memory client ↔ stdio server. -/
theorem transport_combination_dispatch_spec_witness :
    supportedCombo .memory .stdio = false ∧
    chainCodesOf (BridgeManager.connectToServer (mkTransportState .stdio)
        (mkClientConfig .memory) "" sseHintOpts true true true true).1 =
      [.CONNECTION_FAILED, .INVALID_CONFIGURATION] :=
  ⟨rfl, transport_combination_dispatch_spec.1 .memory .stdio rfl⟩

/-- C6: the claim states that a process-exit notification arriving while the
server is `STOPPING` is absorbed, never scheduling a restart. On the code the
exit watcher ignores the status entirely: it sets the server to `STOPPED` and
consults `shouldRestartServer`, which also never looks at the status, so for a
`STOPPING` server with `autoRestart = true` and `restartCount < maxRestarts` a
restart IS scheduled (`.ok true`). -/
theorem exit_during_stopping_schedules_restart :
    stoppingStdioServer.status = .stopping ∧
    stoppingStdioServer.config.autoRestart = some true ∧
    BridgeManager.processExit stoppingState "s1" =
      (.ok true,
        { registry := ⟨[("s1", { stoppingStdioServer with
            status := .stopped
            restartCount := 1 })]⟩
          connections := ⟨[]⟩
          bridges := [] }) :=
  ⟨rfl, rfl, rfl⟩

/-- C7: for every server that is not Running, `updateServerEnvironment`
shallow-merges the delta into `config.env` (delta values overwrite on
collision, keys absent from the delta are preserved) and returns without a
restart: status, process handle, transport handle and restart count are
unchanged, and the registry reports restart-required exactly when the server
is Running. -/
theorem update_env_not_running_frame (st : BridgeState) (id : String)
    (d : List (String × String)) (server : ServerInstance)
    (h : st.registry.servers.lookup id = some server)
    (hs : server.status ≠ .running) (b1 b2 b3 b4 : Bool) :
    ServerRegistry.updateServerEnvironment st.registry id d =
      .ok (⟨setEntry st.registry.servers id (envMergedServer server d)⟩, false) ∧
    BridgeManager.updateServerEnvironment st id d b1 b2 b3 b4 =
      (.ok (), { st with
        registry := ⟨setEntry st.registry.servers id (envMergedServer server d)⟩ }) ∧
    (envMergedServer server d).status = server.status ∧
    (envMergedServer server d).process = server.process ∧
    (envMergedServer server d).transport = server.transport ∧
    (envMergedServer server d).restartCount = server.restartCount ∧
    (∀ k v, d.lookup k = some v →
      (recordMerge (server.config.env.getD []) d).lookup k = some v) ∧
    (∀ k, d.lookup k = none →
      (recordMerge (server.config.env.getD []) d).lookup k =
        (server.config.env.getD []).lookup k) ∧
    (∀ (reg : ServerRegistry) (sv : ServerInstance) (reg' : ServerRegistry)
        (b : Bool), reg.servers.lookup id = some sv →
      reg.updateServerEnvironment id d = .ok (reg', b) →
      (b = true ↔ sv.status = .running)) := by
  have hreg : ServerRegistry.updateServerEnvironment st.registry id d =
      .ok (⟨setEntry st.registry.servers id (envMergedServer server d)⟩, false) := by
    simp [ServerRegistry.updateServerEnvironment, ServerRegistry.getServer, h,
      envMergedServer, bind, Except.bind, hs]
  refine ⟨hreg, by simp [BridgeManager.updateServerEnvironment, hreg],
    rfl, rfl, rfl, rfl,
    fun k v hk => recordMerge_lookup_delta hk,
    fun k hk => recordMerge_lookup_old hk,
    ?_⟩
  intro reg sv reg' b hsv hr
  simp [ServerRegistry.updateServerEnvironment, ServerRegistry.getServer, hsv,
    bind, Except.bind] at hr
  rcases hr with ⟨h1, h2⟩
  rw [← h2]
  simp

/-- Witness for C7 at a concrete stopped server. -/
theorem update_env_not_running_frame_witness :
    stoppedState.registry.servers.lookup "s1" = some stoppedStdioServer ∧
    stoppedStdioServer.status ≠ .running ∧
    BridgeManager.updateServerEnvironment stoppedState "s1" [("X", "1")]
        true true true true =
      (.ok (), { stoppedState with
        registry := ⟨setEntry stoppedState.registry.servers "s1"
          (envMergedServer stoppedStdioServer [("X", "1")])⟩ }) :=
  ⟨rfl, by decide,
    (update_env_not_running_frame stoppedState "s1" [("X", "1")]
      stoppedStdioServer rfl (by decide) true true true true).2.1⟩

/-- C8 (counterexample): the claim states that an environment update on a
server whose status is neither Stopped nor Running fails and leaves
`config.env` unchanged. On the code the update on a `STARTING` server
succeeds, merges the delta into the env, and reports no restart needed. -/
theorem update_env_starting_merges_cex :
    startingStdioServer.status = .starting ∧
    startingStdioServer.config.env = none ∧
    ServerRegistry.updateServerEnvironment startingRegistry "s1" [("X", "1")] =
      .ok (⟨[("s1", { startingStdioServer with
        config := { demoStdioConfig with env := some [("X", "1")] } })]⟩,
        false) :=
  ⟨rfl, rfl, rfl⟩

/-- C8 (amended): for every server whose status is Starting, Stopping or
Error, the environment update is NOT rejected: it succeeds, shallow-merges
the delta into `config.env` exactly as for Stopped and Running servers, and
reports that no restart is required. -/
theorem update_env_transitional_status_merges (reg : ServerRegistry)
    (id : String) (d : List (String × String)) (server : ServerInstance)
    (h : reg.servers.lookup id = some server)
    (hs : server.status = .starting ∨ server.status = .stopping ∨
      server.status = .error) :
    reg.updateServerEnvironment id d =
      .ok (⟨setEntry reg.servers id (envMergedServer server d)⟩, false) ∧
    (∀ k v, d.lookup k = some v →
      (recordMerge (server.config.env.getD []) d).lookup k = some v) ∧
    (∀ k, d.lookup k = none →
      (recordMerge (server.config.env.getD []) d).lookup k =
        (server.config.env.getD []).lookup k) := by
  refine ⟨?_, fun k v hk => recordMerge_lookup_delta hk,
    fun k hk => recordMerge_lookup_old hk⟩
  rcases hs with hs | hs | hs <;>
    simp [ServerRegistry.updateServerEnvironment, ServerRegistry.getServer, h,
      envMergedServer, bind, Except.bind, hs]

/-- Witness for the amended C8 theorem at the concrete starting server. -/
theorem update_env_transitional_status_merges_witness :
    startingRegistry.servers.lookup "s1" = some startingStdioServer ∧
    startingStdioServer.status = .starting ∧
    ServerRegistry.updateServerEnvironment startingRegistry "s1" [("Y", "2")] =
      .ok (⟨setEntry startingRegistry.servers "s1"
        (envMergedServer startingStdioServer [("Y", "2")])⟩, false) :=
  ⟨rfl, rfl,
    (update_env_transitional_status_merges startingRegistry "s1" [("Y", "2")]
      startingStdioServer rfl (Or.inl rfl)).1⟩

/-- C9: supervisor start and stop are idempotent: `startServer` invoked while
the server is Running or Starting returns success with the whole bridge state
unchanged, and `stopServer` invoked while the server is Stopped or Stopping
likewise returns success with the state unchanged. -/
theorem start_stop_idempotent (st : BridgeState) (id : String)
    (server : ServerInstance)
    (h : st.registry.servers.lookup id = some server) :
    ((server.status = .running ∨ server.status = .starting) →
      ∀ b, BridgeManager.startServer st id b = (.ok (), st)) ∧
    ((server.status = .stopped ∨ server.status = .stopping) →
      ∀ b c, BridgeManager.stopServer st id b c = (.ok (), st)) := by
  constructor
  · rintro (hs | hs) b <;>
      simp [BridgeManager.startServer, ServerRegistry.getServer, h, hs]
  · rintro (hs | hs) b c <;>
      simp [BridgeManager.stopServer, ServerRegistry.getServer, h, hs]

/-- Witness for C9: start on a running server and stop on a stopped server
both return success and leave the state untouched. -/
theorem start_stop_idempotent_witness :
    BridgeManager.startServer crashState "s1" true = (.ok (), crashState) ∧
    BridgeManager.stopServer stoppedState "s1" true true =
      (.ok (), stoppedState) :=
  ⟨(start_stop_idempotent crashState "s1" runningStdioServer rfl).1
      (Or.inl rfl) true,
    (start_stop_idempotent stoppedState "s1" stoppedStdioServer rfl).2
      (Or.inl rfl) true true⟩

/-- C10: `registerServer` on a config without an id registers the instance
under the freshly generated id; the returned instance is Stopped with
`restartCount = 0`, has no process, transport, error or start-time fields,
and its config is a copy of the caller's config with `id` set to the
instance id. -/
theorem register_server_fresh_instance (reg : ServerRegistry)
    (config : ServerConfig) (genId : String) (hid : config.id = none)
    (hfresh : reg.servers.lookup genId = none) :
    ∃ inst : ServerInstance,
      reg.registerServer config genId =
        .ok (⟨reg.servers ++ [(genId, inst)]⟩, inst) ∧
      inst.id = genId ∧
      inst.config = { config with id := some genId } ∧
      inst.status = .stopped ∧ inst.restartCount = 0 ∧ inst.process = none ∧
      inst.transport = none ∧ inst.error = none ∧ inst.startTime = none := by
  refine ⟨{ id := genId
            config := { config with id := some genId }
            status := .stopped
            process := none
            transport := none
            error := none
            startTime := none
            restartCount := 0 },
    ?_, rfl, rfl, rfl, rfl, rfl, rfl, rfl, rfl⟩
  simp [ServerRegistry.registerServer, hid, hfresh]

/-- Witness for C10 on the empty registry with generated id `gen1`. -/
theorem register_server_fresh_instance_witness :
    cfgNoId.id = none ∧
    (∃ inst : ServerInstance,
      ServerRegistry.registerServer ⟨[]⟩ cfgNoId "gen1" =
        .ok (⟨[("gen1", inst)]⟩, inst) ∧
      inst.id = "gen1" ∧
      inst.config = { cfgNoId with id := some "gen1" } ∧
      inst.status = .stopped ∧ inst.restartCount = 0 ∧ inst.process = none ∧
      inst.transport = none ∧ inst.error = none ∧ inst.startTime = none) :=
  ⟨rfl, register_server_fresh_instance ⟨[]⟩ cfgNoId "gen1" rfl rfl⟩

end HotswapBridge
